import Mathlib

/-!
Verification of the multi-provider LLM orchestration layer of the Ereuna
repository: prompt templating (`utils/prompt_manager.py`), the provider
client registry (`utils/llm_client_manager.py`), the retrying invocation
engines (`utils/research_generator.py` and `utils/chat_manager.py`), and
the section sequencer / chat path built on top of them.

The Python code is shallowly embedded: pure string manipulation is
translated to Lean functions on `String`, the stateful client registry
becomes explicit state passing, and exception control flow becomes
explicit outcome values.  Provider SDK calls are modelled as oracles
(`Nat → AttemptOutcome`): the outcome of the k-th attempt is an input,
since the network is outside the program.
-/

namespace Ereuna

/-- The `\x7b` character, written via its code point so template text can be
manipulated character by character. -/
def obrace : Char := Char.ofNat 123

/-- The `\x7d` character. -/
def cbrace : Char := Char.ofNat 125

/-- `needle` occurs at the start of `hay` (character lists). -/
def isPrefixChars : List Char → List Char → Bool
  | [], _ => true
  | _ :: _, [] => false
  | n :: ns, h :: hs => n = h && isPrefixChars ns hs

/-- `needle` occurs somewhere in `hay` (character lists), as Python's
`in` operator on strings. -/
def substrChars (needle : List Char) : List Char → Bool
  | [] => isPrefixChars needle []
  | c :: hs => isPrefixChars needle (c :: hs) || substrChars needle hs

/-- Python's `needle in hay` on strings. -/
def containsSub (hay needle : String) : Bool :=
  substrChars needle.data hay.data

/-- Association-list lookup (Python `dict.get`). -/
def alookup {α : Type} : List (String × α) → String → Option α
  | [], _ => none
  | (k, v) :: t, key => if k = key then some v else alookup t key

/-- Python `str.lower()` (ASCII, which covers every classification
marker the code compares against). -/
def lowerStr (s : String) : String :=
  String.mk (s.data.map Char.toLower)

/-- Python `str.strip()`: drop leading and trailing whitespace. -/
def stripStr (s : String) : String :=
  String.mk (((s.data.dropWhile Char.isWhitespace).reverse.dropWhile Char.isWhitespace).reverse)

/-- Python `s[:n]`. -/
def takeStr (s : String) (n : Nat) : String :=
  String.mk (s.data.take n)

/-! ## Prompt Template Store (`utils/prompt_manager.py`)

`PromptManager` holds a name → template map.  The runtime store is the
set of default templates created by `_create_default_templates`
(loading persisted templates from disk is a bootstrap concern outside
the core, per the code's own structure: the defaults are the canonical
template text).  `format_prompt` delegates to Python's `str.format`,
which we model for simple named fields (`\x7bname\x7d`, with `\x7b\x7b` escapes) —
the only shape the store's templates use. -/

/-- Source text of the `research_section` default template
(`prompt_manager.py` line 47). -/
def tmplResearchSection : String :=
  "Create a {section_name} for a research report on the topic: {topic}. Keywords: {keywords}. Research questions: {research_questions}. Ensure the content is approximately {word_count} words. {deep_research_instruction}"

/-- Source text of the `executive_summary` default template (line 51). -/
def tmplExecutiveSummary : String :=
  "Provide a {summary_detail_instruction} executive summary (around {summary_word_count} words) of the following research report. Focus on the main findings, key arguments, and conclusions. Ensure the summary is clear, objective, and highlights the most important aspects. {deep_research_instruction}\n\nResearch Report:\n{full_report_content}"

/-- Source text of the `chat_response` default template (lines 55-65). -/
def tmplChatResponse : String :=
  "Based on the following research content, answer the user\x27s question.\nIf the answer is not directly available in the provided content, state that you don\x27t have enough information in the research to answer, but then attempt to answer using your broader knowledge.\nIf you use external knowledge, clearly state that the information is not from the provided research.\n \n--- Research Content ---\n{research_content}\n--- End Research Content ---\n \nUser\x27s Question: {user_query}\n \nPlease provide a clear, concise answer. Prioritize information from the research content. If you use external knowledge, clearly state that it is not from the provided research."

/-- Source text of the `relevance_check` default template (line 69). -/
def tmplRelevanceCheck : String :=
  "Given the research topic: \x27{research_topic}\x27, determine if the following user query is relevant. Respond with \x27YES\x27 if relevant, and \x27NO\x27 if not relevant. Do not provide any other text.\n\nUser Query: {user_query}"

/-- Source text of the `web_search_response` default template (lines 73-82). -/
def tmplWebSearchResponse : String :=
  "Based on the following web search results and your broader knowledge, answer the user\x27s question.\nClearly state that this information is from external sources and not the original research report.\n \n--- Web Search Results ---\n{scraped_content}\n--- End Web Search Results ---\n \nUser\x27s Question: {user_query}\n \nPlease provide a clear, concise answer, explicitly mentioning that this information is from external sources."

/-- Source text of the `table_summary` default template (lines 86-90). -/
def tmplTableSummary : String :=
  "Please summarize the following table data concisely.\n            Table Content:\n            {table_content}\n\n            Provide a summary that highlights the key information and trends in the table."

/-- The template store: the six defaults of `_create_default_templates`,
keyed by name. -/
def defaultTemplates : List (String × String) :=
  [("research_section", tmplResearchSection),
   ("executive_summary", tmplExecutiveSummary),
   ("chat_response", tmplChatResponse),
   ("relevance_check", tmplRelevanceCheck),
   ("web_search_response", tmplWebSearchResponse),
   ("table_summary", tmplTableSummary)]

/-- `PromptManager.get_template`: `self.templates.get(template_name)`. -/
def get_template (store : List (String × String)) (name : String) : Option String :=
  alookup store name

/-- Exceptions `str.format` can raise on the template shapes in the
store: `KeyError` for a missing named field, `ValueError` for malformed
brace syntax. -/
inductive PyFmtExc where
  | keyError (key : String)
  | valueError (msg : String)
deriving DecidableEq

/-- A parsed template segment: literal text or a named placeholder. -/
inductive Seg where
  | lit (s : String)
  | ph (name : String)
deriving DecidableEq

/-- Parse a format string into segments, as Python's formatter scans it:
`\x7b\x7b` and `\x7d\x7d` are literal braces, `\x7bname\x7d` is a named field, anything
else involving a brace is a `ValueError`.  (Nested fields and format
specs do not occur in the store's templates and are not modelled.)
The fuel argument only makes the recursion structural: every step
consumes at least one character, so any fuel above the input length
gives the parse; the wrapper below passes `length + 1`. -/
def parseSegsF : Nat → List Char → Except PyFmtExc (List Seg)
  | 0, _ => .error (.valueError "Single brace encountered in format string")
  | _ + 1, [] => .ok []
  | fuel + 1, c :: cs =>
    if c = obrace then
      match cs with
      | [] => .error (.valueError "Single brace encountered in format string")
      | c2 :: cs2 =>
        if c2 = obrace then
          (parseSegsF fuel cs2).map (fun segs => .lit (String.singleton obrace) :: segs)
        else
          match (c2 :: cs2).dropWhile (fun d => d ≠ cbrace) with
          | [] => .error (.valueError "Single brace encountered in format string")
          | _ :: rest =>
            (parseSegsF fuel rest).map
              (fun segs =>
                .ph (String.mk ((c2 :: cs2).takeWhile (fun d => d ≠ cbrace))) :: segs)
    else if c = cbrace then
      match cs with
      | [] => .error (.valueError "Single brace encountered in format string")
      | c2 :: cs2 =>
        if c2 = cbrace then
          (parseSegsF fuel cs2).map (fun segs => .lit (String.singleton cbrace) :: segs)
        else .error (.valueError "Single brace encountered in format string")
    else
      (parseSegsF fuel cs).map (fun segs => .lit (String.singleton c) :: segs)

/-- Parse a format string into segments. -/
def parseSegs (l : List Char) : Except PyFmtExc (List Seg) :=
  parseSegsF (l.length + 1) l

/-- Substitute the variables into parsed segments left to right; the
first placeholder missing from `vars` raises `KeyError`, as in Python. -/
def renderSegs (vars : List (String × String)) : List Seg → Except PyFmtExc String
  | [] => .ok ""
  | .lit s :: rest => (renderSegs vars rest).map (fun r => s ++ r)
  | .ph k :: rest =>
    match alookup vars k with
    | none => .error (.keyError k)
    | some v => (renderSegs vars rest).map (fun r => v ++ r)

/-- Python `template.format(**vars)` for the store's template shapes. -/
def pyFormat (template : String) (vars : List (String × String)) :
    Except PyFmtExc String :=
  match parseSegs template.data with
  | .error e => .error e
  | .ok segs => renderSegs vars segs

/-- The names of the placeholders a template references, in order. -/
def segPlaceholders : List Seg → List String
  | [] => []
  | .lit _ :: rest => segPlaceholders rest
  | .ph k :: rest => k :: segPlaceholders rest

/-- Placeholders referenced by a template string. -/
def placeholders (template : String) : List String :=
  match parseSegs template.data with
  | .error _ => []
  | .ok segs => segPlaceholders segs

/-- The failure conditions `PromptManager.format_prompt` surfaces (each is
raised as a `ValueError` whose message is `pmErrorMsg` below). -/
inductive PMError where
  | templateNotFound (name : String)
  | missingPlaceholder (key : String) (templateName : String)
  | otherFormatError (msg : String)
deriving DecidableEq

/-- The message of the `ValueError` raised for each `PMError`
(`prompt_manager.py` lines 125 and 131; `\x7be\x7d` on a `KeyError` renders the
key in single quotes). -/
def pmErrorMsg : PMError → String
  | .templateNotFound n => "Prompt template \x27" ++ n ++ "\x27 not found."
  | .missingPlaceholder k n =>
      "Missing data for prompt placeholder: \x27" ++ k ++ "\x27. Check template \x27" ++ n ++ "\x27."
  | .otherFormatError m => m

/-- `PromptManager.format_prompt` (lines 109-134): look the template up
(`if not template` treats an absent or empty template as not found),
format it, and convert a `KeyError` into the missing-placeholder
`ValueError`; any other formatting exception is re-raised. -/
def format_prompt (store : List (String × String)) (name : String)
    (vars : List (String × String)) : Except PMError String :=
  match get_template store name with
  | none => .error (.templateNotFound name)
  | some t =>
    if t = "" then .error (.templateNotFound name)
    else
      match pyFormat t vars with
      | .ok s => .ok s
      | .error (.keyError k) => .error (.missingPlaceholder k name)
      | .error (.valueError m) => .error (.otherFormatError m)

instance {ε α : Type} [DecidableEq ε] [DecidableEq α] : DecidableEq (Except ε α) := fun x y =>
  match x, y with
  | .ok a, .ok b =>
    if h : a = b then isTrue (by rw [h]) else isFalse (by intro hh; cases hh; exact h rfl)
  | .error a, .error b =>
    if h : a = b then isTrue (by rw [h]) else isFalse (by intro hh; cases hh; exact h rfl)
  | .ok _, .error _ => isFalse (by intro hh; cases hh)
  | .error _, .ok _ => isFalse (by intro hh; cases hh)

/-! ## Retrying Invocation Engine (`research_generator.py` lines 75-202,
`chat_manager.py` lines 56-172)

A provider call either returns text or raises.  The `except` clauses of
`_make_api_call_with_retry` partition raised exceptions into three
groups by type: the timeout group (`genai.types.BlockedPromptException`,
`openai.APITimeoutError`, `anthropic.APITimeoutError`), the API-error
group (`genai.APIError`, `openai.APIError`, `anthropic.APIError`), and
everything else (`except Exception`, which also receives the
`ValueError` raised for an empty response).  We embed that partition as
the exception datatype; the message string drives the substring
classification inside the API-error group. -/

/-- An exception raised by a provider call, keyed by which `except`
group of the retry loop would catch it. -/
inductive PyExc where
  | timeout (msg : String)
  | apiError (msg : String)
  | other (ty : String) (msg : String)
deriving DecidableEq

/-- Outcome of one underlying provider call. -/
inductive AttemptOutcome where
  | ok (text : String)
  | exc (e : PyExc)
deriving DecidableEq

/-- What a retry-engine call produced: the returned string, the number
of provider calls actually made, and the backoff sleeps in order. -/
structure EngineResult where
  text : String
  calls : Nat
  waits : List Nat
deriving DecidableEq

/-- `ResearchGenerator` configuration relevant to the embedded calls:
constructor arguments (lines 18-59) plus whether
`llm_client_manager.get_client` yields a client for `model_name`. -/
structure RGen where
  topic : String
  keywords : String
  research_questions : String
  deep : Bool
  model_name : String
  max_retries : Nat
  clientOk : Bool

/-- `model_name.split('-')[0]`: the provider family of a model
identifier — the characters before the first hyphen (the whole string
when there is none). -/
def familyOf (m : String) : String :=
  String.mk (m.data.takeWhile (fun c => c ≠ '-'))

/-- The dispatch guard of the retry loops: one of the three provider
branches is taken iff the family is recognized and the registry
produced a client (lines 99-124 / 76-113). -/
def engineSupported (fam : String) (clientOk : Bool) : Bool :=
  (fam == "gemini" || fam == "gpt" || fam == "claude") && clientOk

/-- The final error string after the loop exhausts (line 202 / 172). -/
def failedAllMsg (sn mn : String) (maxR : Nat) : String :=
  "Error: Failed to generate " ++ sn ++ " with " ++ mn ++ " after " ++
    toString maxR ++ " attempts. Please try again later."

/-- `ResearchGenerator._make_api_call_with_retry` loop body, recursing on
the remaining iterations of `for attempt in range(self.max_retries)`.
`attempt` is the 0-based index, `calls` counts provider calls made so
far, `waits` the `time.sleep` durations so far. -/
def researchRetry (g : RGen) (sn : String) (provider : Nat → AttemptOutcome) :
    Nat → Nat → Nat → List Nat → EngineResult
  | 0, _, calls, waits => ⟨failedAllMsg sn g.model_name g.max_retries, calls, waits⟩
  | fuel + 1, attempt, calls, waits =>
    if engineSupported (familyOf g.model_name) g.clientOk then
      match provider attempt with
      | .ok t =>
        if stripStr t ≠ "" then ⟨t, calls + 1, waits⟩
        else
          -- line 128-129: empty text raises `ValueError`, caught by the
          -- generic `except Exception` handler (lines 184-197)
          if attempt < g.max_retries - 1 then
            researchRetry g sn provider fuel (attempt + 1) (calls + 1) (waits ++ [2 ^ attempt])
          else
            ⟨"Error generating " ++ sn ++ " with " ++ g.model_name ++ ": ValueError - " ++
              ("Empty response received for " ++ sn), calls + 1, waits⟩
      | .exc (.timeout _) =>
        -- lines 136-147
        if attempt < g.max_retries - 1 then
          researchRetry g sn provider fuel (attempt + 1) (calls + 1) (waits ++ [2 ^ attempt])
        else
          ⟨"Error: Request timeout for " ++ sn ++ " with " ++ g.model_name ++
            ". Please check your connection and try again.", calls + 1, waits⟩
      | .exc (.apiError m) =>
        -- lines 148-183: classify by lowercased message content
        let lm := lowerStr m
        if containsSub lm "quota" || containsSub lm "rate" then
          if attempt < g.max_retries - 1 then
            researchRetry g sn provider fuel (attempt + 1) (calls + 1) (waits ++ [2 ^ attempt * 2])
          else
            ⟨"Error: API rate limit exceeded for " ++ sn ++ " with " ++ g.model_name ++
              ". Please try again later.", calls + 1, waits⟩
        else if containsSub lm "api key" || containsSub lm "authentication" then
          ⟨"Error: Invalid API key for " ++ g.model_name ++
            ". Please check your configuration.", calls + 1, waits⟩
        else if containsSub lm "permission" || containsSub lm "forbidden" then
          ⟨"Error: Permission denied for " ++ g.model_name ++
            ". Please check your API key permissions.", calls + 1, waits⟩
        else
          if attempt < g.max_retries - 1 then
            researchRetry g sn provider fuel (attempt + 1) (calls + 1) (waits ++ [2 ^ attempt])
          else
            ⟨"Error generating " ++ sn ++ " with " ++ g.model_name ++ ": " ++ m,
              calls + 1, waits⟩
      | .exc (.other ty m) =>
        -- lines 184-197
        if attempt < g.max_retries - 1 then
          researchRetry g sn provider fuel (attempt + 1) (calls + 1) (waits ++ [2 ^ attempt])
        else
          ⟨"Error generating " ++ sn ++ " with " ++ g.model_name ++ ": " ++ ty ++ " - " ++ m,
            calls + 1, waits⟩
    else
      -- line 124-125: unsupported model or no client, before any provider call
      ⟨"Error: Unsupported model \x27" ++ g.model_name ++ "\x27 or API client not initialized.",
        calls, waits⟩

/-- `ResearchGenerator._make_api_call_with_retry(prompt, section_name)`.
The provider oracle gives the outcome of each attempt; the prompt itself
does not influence control flow inside the engine. -/
def make_api_call_with_retry (g : RGen) (sn : String)
    (provider : Nat → AttemptOutcome) : EngineResult :=
  researchRetry g sn provider g.max_retries 0 0 []

/-- What `ChatManager._make_llm_call_with_retry` produces: either a
returned string, or an exception of the named type escaping the method.
`calls` counts provider calls made. -/
inductive ChatEngineResult where
  | returned (text : String) (calls : Nat)
  | raised (excType : String) (msg : String) (calls : Nat)
deriving DecidableEq

/-- The message of the `NameError` raised when `chat_manager.py`'s
`except` clause evaluates the unimported name `openai` (line 125). -/
def nameErrorMsg : String := "name \x27openai\x27 is not defined"

/-- `ChatManager` configuration relevant to the embedded calls. -/
structure CMgr where
  model_name : String
  max_retries : Nat
  clientOk : Bool
  research_topic : String
  research_content : String

/-- `ChatManager._make_llm_call_with_retry` loop body.

`chat_manager.py` imports neither `openai` nor `anthropic` (its imports
are lines 1-12), yet its first `except` clause (line 125) names
`openai.APITimeoutError` and `anthropic.APITimeoutError`.  Python
evaluates an `except` clause's exception expression only when an
exception propagates out of the `try` body, so the moment any provider
call raises — or the empty-response `ValueError` of line 120 fires —
evaluating that tuple raises `NameError: name 'openai' is not defined`,
which is not caught by any later clause and escapes the method.  None of
the written retry/backoff/classification handlers (lines 125-170) is
reachable, and no `time.sleep` ever runs. -/
def chatRetry (c : CMgr) (ct : String) (provider : Nat → AttemptOutcome) :
    Nat → Nat → Nat → ChatEngineResult
  | 0, _, calls => .returned (failedAllMsg ct c.model_name c.max_retries) calls
  | _ + 1, attempt, calls =>
    if engineSupported (familyOf c.model_name) c.clientOk then
      match provider attempt with
      | .ok t =>
        if stripStr t ≠ "" then .returned t (calls + 1)
        else .raised "NameError" nameErrorMsg (calls + 1)
      | .exc _ => .raised "NameError" nameErrorMsg (calls + 1)
    else
      .returned ("Error: Model \x27" ++ c.model_name ++
        "\x27 is not supported or API client not initialized. Please check your API keys.") calls

/-- `ChatManager._make_llm_call_with_retry(prompt, call_type)`. -/
def make_llm_call_with_retry (c : CMgr) (ct : String)
    (provider : Nat → AttemptOutcome) : ChatEngineResult :=
  chatRetry c ct provider c.max_retries 0 0

/-! ## Section Sequencer (`research_generator.py` lines 251-412) -/

/-- `section_data`: a bare title string, a template dict with `title`,
`prompt` and `word_count` fields (each possibly absent), or a value of
any other type (rejected with a `ValueError`). -/
inductive SectionData where
  | str (s : String)
  | dict (title : Option String) (prompt : Option String) (word_count : Option Nat)
  | other
deriving DecidableEq

/-- Trace of one `generate_section` call: what it returned (`.error` is
an exception type escaping the method), and the prompt it handed to
`_make_api_call_with_retry`, when one was built. -/
structure SectionOutcome where
  result : Except String String
  enginePrompt : Option String
deriving DecidableEq

/-- The deep-research instruction appended when `deep_research_enabled`
(line 308). -/
def deepInstr : String :=
  "Provide extensive details, comprehensive analysis, and a professional, in-depth output."

/-- The suffix line 280 appends in place to a dict's `prompt` value when
`deep_research_enabled` (note the leading space). -/
def deepPromptSuffix : String :=
  " Provide extensive details, comprehensive analysis, and a professional, in-depth output."

/-- The keyword arguments `generate_section` passes to
`format_prompt("research_section", ...)` (lines 311-320).  Python passes
`word_count if word_count else ""`, so both a missing and a zero word
count format as the empty string; `previous_sections_content` defaults
to the empty string when the caller passed nothing. -/
def sectionVars (g : RGen) (section_name : String) (word_count : Option Nat)
    (prev : Option String) : List (String × String) :=
  [("section_name", section_name),
   ("topic", g.topic),
   ("keywords", g.keywords),
   ("research_questions", g.research_questions),
   ("word_count", match word_count with
                  | some w => if w = 0 then "" else toString w
                  | none => ""),
   ("deep_research_instruction", if g.deep then deepInstr else ""),
   ("previous_sections_content", prev.getD "")]

/-- The formatted `research_section` prompt a `generate_section` call
builds before invoking the engine (the only template it ever formats). -/
def expectedSectionPrompt (g : RGen) (section_name : String)
    (word_count : Option Nat) (prev : Option String) : Except PMError String :=
  format_prompt defaultTemplates "research_section"
    (sectionVars g section_name word_count prev)

/-- `ResearchGenerator.generate_section(section_data, previous_sections_content)`
(lines 251-342).

Control flow from the source:
* Lines 269-282 (deep-research preprocessing).  For a bare-string
  descriptor it evaluates an f-string referencing the still-unbound
  local `section_name` (line 282); the resulting `UnboundLocalError` is
  caught by the generic handler (line 336) whose own message (line 342)
  references `section_name` again, so an `UnboundLocalError` escapes the
  method.  For a dict carrying a `prompt` key, line 280 appends
  `deepPromptSuffix` to its value in place, *before* line 289's
  truthiness check; the appended text is never passed to
  `format_prompt`, so its one observable effect is that a
  present-but-empty override becomes non-empty and reaches the engine
  when deep research is enabled.  The 1.5× word count of line 272 is
  dead: line 287 re-reads the dict's original value.
* For a dict, `title` defaults to "Untitled Section" and a `prompt`
  that is falsy after the preprocessing (absent, or empty with deep
  research off) raises a `ValueError` that is caught and returned as an
  `Error:` string (lines 284-290, 329-335) — before any API call.
* For a bare string, the `research_section` template must exist in the
  store (lines 291-304).
* The final prompt is always `format_prompt("research_section", ...)`
  (lines 311-320): the dict's `prompt` override is not passed to it.
* A formatting `ValueError` is caught and returned as an `Error:`
  string; otherwise the engine's returned text is returned verbatim. -/
def generate_section_run (g : RGen) (provider : Nat → AttemptOutcome)
    (sd : SectionData) (prev : Option String) : SectionOutcome :=
  match sd with
  | .str s =>
    if g.deep then ⟨.error "UnboundLocalError", none⟩
    else
      match get_template defaultTemplates "research_section" with
      | none =>
        ⟨.ok "Error: Default \x27research_section\x27 prompt template not found.", none⟩
      | some _ =>
        match expectedSectionPrompt g s none prev with
        | .error e => ⟨.ok ("Error: " ++ pmErrorMsg e), none⟩
        | .ok p => ⟨.ok (make_api_call_with_retry g s provider).text, some p⟩
  | .dict title promptOpt wcOpt =>
    let promptAfterDeep :=
      if g.deep then promptOpt.map (fun p => p ++ deepPromptSuffix) else promptOpt
    let section_name := title.getD "Untitled Section"
    if promptAfterDeep = none ∨ promptAfterDeep = some "" then
      ⟨.ok ("Error: Section \x27" ++ section_name ++
        "\x27 is missing a \x27prompt\x27 field in the template."), none⟩
    else
      match expectedSectionPrompt g section_name wcOpt prev with
      | .error e => ⟨.ok ("Error: " ++ pmErrorMsg e), none⟩
      | .ok p => ⟨.ok (make_api_call_with_retry g section_name provider).text, some p⟩
  | .other => ⟨.ok "Error: Invalid section_data type. Must be string or dictionary.", none⟩

/-- `ResearchGenerator.generate_section`'s returned value. -/
def generate_section (g : RGen) (provider : Nat → AttemptOutcome)
    (sd : SectionData) (prev : Option String) : Except String String :=
  (generate_section_run g provider sd prev).result

/-- The mapping `generate_report` returns when an exception escapes a
section call (lines 405-412): all six canonical keys, populated with
failure placeholders. -/
def reportFallback (emsg : String) : List (String × String) :=
  [("Introduction", "Error: Failed to generate report - " ++ emsg),
   ("Literature Review", "Error: Report generation failed"),
   ("Methodology", "Error: Report generation failed"),
   ("Results", "Error: Report generation failed"),
   ("Discussion", "Error: Report generation failed"),
   ("Conclusion", "Error: Report generation failed")]

/-- One report run: the returned title → text mapping in insertion
order, and, per generated section, the prompt its engine call received.
`providers k` is the provider oracle for the k-th section call.  The
source performs the six `generate_section` calls strictly in sequence
inside one `try` (lines 359-398) — each call is made only after the
previous returned — and passes each call only the section dict: no
`previous_sections_content` argument, so every call sees the default
`None` (lines 363-383). -/
def generate_report_run (g : RGen) (providers : Nat → Nat → AttemptOutcome) :
    (List (String × String)) × (List (String × Option String)) :=
  let o0 := generate_section_run g (providers 0)
    (.dict (some "Introduction") (some "Provide an introduction to the topic.") (some 200)) none
  match o0.result with
  | .error e => (reportFallback e, [("Introduction", o0.enginePrompt)])
  | .ok s0 =>
    let o1 := generate_section_run g (providers 1)
      (.dict (some "Literature Review") (some "Review existing literature on the topic.") (some 400)) none
    match o1.result with
    | .error e =>
      (reportFallback e,
       [("Introduction", o0.enginePrompt), ("Literature Review", o1.enginePrompt)])
    | .ok s1 =>
      let o2 := generate_section_run g (providers 2)
        (.dict (some "Methodology") (some "Describe the research methodology.") (some 300)) none
      match o2.result with
      | .error e =>
        (reportFallback e,
         [("Introduction", o0.enginePrompt), ("Literature Review", o1.enginePrompt),
          ("Methodology", o2.enginePrompt)])
      | .ok s2 =>
        let o3 := generate_section_run g (providers 3)
          (.dict (some "Results") (some "Present the results of the research.") (some 300)) none
        match o3.result with
        | .error e =>
          (reportFallback e,
           [("Introduction", o0.enginePrompt), ("Literature Review", o1.enginePrompt),
            ("Methodology", o2.enginePrompt), ("Results", o3.enginePrompt)])
        | .ok s3 =>
          let o4 := generate_section_run g (providers 4)
            (.dict (some "Discussion") (some "Discuss the implications of the results.") (some 300)) none
          match o4.result with
          | .error e =>
            (reportFallback e,
             [("Introduction", o0.enginePrompt), ("Literature Review", o1.enginePrompt),
              ("Methodology", o2.enginePrompt), ("Results", o3.enginePrompt),
              ("Discussion", o4.enginePrompt)])
          | .ok s4 =>
            let o5 := generate_section_run g (providers 5)
              (.dict (some "Conclusion") (some "Conclude the research with key findings.") (some 200)) none
            match o5.result with
            | .error e =>
              (reportFallback e,
               [("Introduction", o0.enginePrompt), ("Literature Review", o1.enginePrompt),
                ("Methodology", o2.enginePrompt), ("Results", o3.enginePrompt),
                ("Discussion", o4.enginePrompt), ("Conclusion", o5.enginePrompt)])
            | .ok s5 =>
              ([("Introduction", s0), ("Literature Review", s1), ("Methodology", s2),
                ("Results", s3), ("Discussion", s4), ("Conclusion", s5)],
               [("Introduction", o0.enginePrompt), ("Literature Review", o1.enginePrompt),
                ("Methodology", o2.enginePrompt), ("Results", o3.enginePrompt),
                ("Discussion", o4.enginePrompt), ("Conclusion", o5.enginePrompt)])

/-- `ResearchGenerator.generate_report()` (lines 344-412). -/
def generate_report (g : RGen) (providers : Nat → Nat → AttemptOutcome) :
    List (String × String) :=
  (generate_report_run g providers).1

/-! ## Chat path (`chat_manager.py` lines 174-253) -/

/-- Everything one `generate_chat_response` call did: the returned
string, the prompts handed to `_make_llm_call_with_retry` in order, how
many web searches ran, the chat history afterwards, and which templates
were formatted. -/
structure ChatTurn where
  response : String
  llmPrompts : List String
  webSearches : Nat
  historyOut : List (String × String)
  formattedTemplates : List String
deriving DecidableEq

/-- The scope-refusal message (line 200). -/
def scopeRefusal (topic : String) : String :=
  "I can only answer questions related to the research topic: \x27" ++ topic ++
    "\x27. Your question seems to be outside this scope."

/-- The `except ValueError` response of line 250. -/
def promptIssueMsg (m : String) : String :=
  "I apologize, but there was an issue with the prompt: " ++ m

/-- The `except Exception` response of line 253. -/
def chatErrorMsg (m : String) : String :=
  "I apologize, but I encountered an error: " ++ m

/-- `ChatManager.generate_chat_response(user_query)` (lines 174-253).

`llm` is the result of `_make_llm_call_with_retry` per prompt (a
`.raised` value propagates to the `except Exception` handler at
line 251).  `webResults` is what `search_academic_sources` returns for
the turn's (single possible) web search, as (title, url) pairs, and
`scrape` is `scrape_text_from_url`.  History is appended only after a
fully successful exchange (lines 242-243). -/
def generate_chat_response (c : CMgr) (hist : List (String × String))
    (llm : String → ChatEngineResult)
    (webResults : List (String × String)) (scrape : String → Option String)
    (user_query : String) : ChatTurn :=
  -- line 187: `if not user_query or not user_query.strip()`
  if user_query = "" ∨ stripStr user_query = "" then
    ⟨"Please ask a question.", [], 0, hist, []⟩
  else
    match format_prompt defaultTemplates "relevance_check"
        [("research_topic", c.research_topic), ("user_query", user_query)] with
    | .error e => ⟨promptIssueMsg (pmErrorMsg e), [], 0, hist, ["relevance_check"]⟩
    | .ok relPrompt =>
      match llm relPrompt with
      | .raised _ m _ => ⟨chatErrorMsg m, [relPrompt], 0, hist, ["relevance_check"]⟩
      | .returned rel _ =>
        -- line 199: `if "no" in relevance_response.lower()`
        if containsSub (lowerStr rel) "no" then
          ⟨scopeRefusal c.research_topic, [relPrompt], 0, hist, ["relevance_check"]⟩
        else
          match format_prompt defaultTemplates "chat_response"
              [("research_content",
                if c.research_content = "" then "No specific research content loaded."
                else c.research_content),
               ("user_query", user_query)] with
          | .error e =>
            ⟨promptIssueMsg (pmErrorMsg e), [relPrompt], 0, hist,
             ["relevance_check", "chat_response"]⟩
          | .ok chatPrompt =>
            match llm chatPrompt with
            | .raised _ m _ =>
              ⟨chatErrorMsg m, [relPrompt, chatPrompt], 0, hist,
               ["relevance_check", "chat_response"]⟩
            | .returned resp0 _ =>
              -- lines 213-236: insufficient-information trigger → web search
              if containsSub (lowerStr resp0) "not available in the research" ∨
                 containsSub (lowerStr resp0) "don\x27t have enough information" then
                let scraped := webResults.filterMap (fun r =>
                  (scrape r.2).map (fun content =>
                    "Source: " ++ r.1 ++ " (" ++ r.2 ++ ")\nContent: " ++
                      takeStr content 1000 ++ "..."))
                if webResults ≠ [] ∧ scraped ≠ [] then
                  match format_prompt defaultTemplates "web_search_response"
                      [("scraped_content", String.intercalate "\n\n" scraped),
                       ("user_query", user_query)] with
                  | .error e =>
                    ⟨promptIssueMsg (pmErrorMsg e), [relPrompt, chatPrompt], 1, hist,
                     ["relevance_check", "chat_response", "web_search_response"]⟩
                  | .ok webPrompt =>
                    match llm webPrompt with
                    | .raised _ m _ =>
                      ⟨chatErrorMsg m, [relPrompt, chatPrompt, webPrompt], 1, hist,
                       ["relevance_check", "chat_response", "web_search_response"]⟩
                    | .returned resp1 _ =>
                      let resp2 :=
                        if containsSub (lowerStr resp1) "not from the provided research" then resp1
                        else
                          "The following information is from external sources and not from the provided research: " ++ resp1
                      if resp2 = "" ∨ stripStr resp2 = "" then
                        ⟨"I received an empty response. Please try rephrasing your question.",
                         [relPrompt, chatPrompt, webPrompt], 1, hist,
                         ["relevance_check", "chat_response", "web_search_response"]⟩
                      else
                        ⟨resp2, [relPrompt, chatPrompt, webPrompt], 1,
                         hist ++ [("user", user_query), ("assistant", resp2)],
                         ["relevance_check", "chat_response", "web_search_response"]⟩
                else
                  -- no usable web material: the initial response stands
                  if resp0 = "" ∨ stripStr resp0 = "" then
                    ⟨"I received an empty response. Please try rephrasing your question.",
                     [relPrompt, chatPrompt], 1, hist, ["relevance_check", "chat_response"]⟩
                  else
                    ⟨resp0, [relPrompt, chatPrompt], 1,
                     hist ++ [("user", user_query), ("assistant", resp0)],
                     ["relevance_check", "chat_response"]⟩
              else
                if resp0 = "" ∨ stripStr resp0 = "" then
                  ⟨"I received an empty response. Please try rephrasing your question.",
                   [relPrompt, chatPrompt], 0, hist, ["relevance_check", "chat_response"]⟩
                else
                  ⟨resp0, [relPrompt, chatPrompt], 0,
                   hist ++ [("user", user_query), ("assistant", resp0)],
                   ["relevance_check", "chat_response"]⟩

/-! ## Provider Client Registry (`utils/llm_client_manager.py`)

`LLMClientManager` owns `api_keys` (immutable after construction) and
`clients`, a family → handle cache.  `ctorOk fam` abstracts whether the
provider SDK's constructor succeeds for that family (line 65's
`except Exception` turns a raising constructor into "no client cached",
identically to a missing key).  `built` records each handle actually
constructed, for counting. -/

structure Registry where
  api_keys : List (String × String)
  clients : List (String × String)
  built : List String
deriving DecidableEq

/-- The three provider families `_initialize_api_client` can configure
(lines 45-60). -/
def supportedFamily (fam : String) : Bool :=
  fam == "gemini" || fam == "gpt" || fam == "claude"

/-- The handle cached for a family (a tag standing for the SDK object:
the configured `genai` module, an `AsyncOpenAI`, or an
`AsyncAnthropic`). -/
def handleFor (fam : String) : String :=
  "client:" ++ fam

/-- `LLMClientManager._initialize_api_client(model_prefix)`
(lines 32-68): missing key → warn and return; unsupported family →
warn and return; constructor raising → caught, nothing cached.  Only a
successful construction caches a handle. -/
def init_api_client (ctorOk : String → Bool) (r : Registry) (fam : String) : Registry :=
  match alookup r.api_keys fam with
  | none => r
  | some _ =>
    if supportedFamily fam then
      if ctorOk fam then
        { r with clients := (fam, handleFor fam) :: r.clients, built := fam :: r.built }
      else r
    else r

/-- `LLMClientManager.get_client(model_name)` (lines 22-30): parse the
family, initialize on a cache miss, return `clients.get(family)`. -/
def get_client (ctorOk : String → Bool) (r : Registry) (model_name : String) :
    Option String × Registry :=
  let fam := familyOf model_name
  if (alookup r.clients fam).isSome then (alookup r.clients fam, r)
  else
    let r' := init_api_client ctorOk r fam
    (alookup r'.clients fam, r')

/-- A fresh registry, as built by `__init__` (lines 17-20). -/
def initRegistry (keys : List (String × String)) : Registry :=
  ⟨keys, [], []⟩

/-- Run a sequence of `get_client` calls, threading the registry. -/
def runCalls (ctorOk : String → Bool) (r : Registry) : List String → Registry
  | [] => r
  | m :: ms => runCalls ctorOk (get_client ctorOk r m).2 ms

/-- How many times `fam` occurs in a list (used to count handle
constructions per family). -/
def countStr (fam : String) : List String → Nat
  | [] => 0
  | x :: t => (if x = fam then 1 else 0) + countStr fam t

/-- Registry invariant: every cached client belongs to a supported
family whose credential is present and whose constructor succeeds; no
family's handle was constructed more than once; and a family with a
constructed handle is cached. -/
def RegGood (ctorOk : String → Bool) (r : Registry) : Prop :=
  (∀ fam h, alookup r.clients fam = some h →
      supportedFamily fam = true ∧ (alookup r.api_keys fam).isSome = true ∧
        ctorOk fam = true) ∧
  (∀ fam, countStr fam r.built ≤ 1) ∧
  (∀ fam, countStr fam r.built ≠ 0 → (alookup r.clients fam).isSome = true)

/-! ## Concrete fixtures used by witnesses and counterexamples -/

/-- `s` starts with `pre` (Python `str.startswith`). -/
def startsWithStr (s pre : String) : Bool :=
  isPrefixChars pre.data s.data

/-- A `ResearchGenerator` configured as the tests of §8 describe:
supported model, client available, default `max_retries`. -/
def gX : RGen :=
  ⟨"T", "K", "Q", false, "gemini-2.5-flash", 3, true⟩

/-- A `ResearchGenerator` on an unrecognized model identifier. -/
def gUnsup : RGen :=
  ⟨"T", "K", "Q", false, "foo-1", 3, true⟩

/-- A `ResearchGenerator` like `gX` but with deep research enabled. -/
def gDeepX : RGen :=
  ⟨"T", "K", "Q", true, "gemini-2.5-flash", 3, true⟩

/-- A `ChatManager` with a supported model and a client. -/
def cX : CMgr :=
  ⟨"gemini-2.5-flash", 3, true, "Soil erosion", ""⟩

/-- Provider oracle whose first section call yields `"SECTION ALPHA"`
and later sections a fixed text. -/
def provAlpha : Nat → Nat → AttemptOutcome :=
  fun k _ => if k = 0 then .ok "SECTION ALPHA" else .ok "LATER TEXT"

/-- Same oracle except the first section yields `"SECTION BETA"`. -/
def provBeta : Nat → Nat → AttemptOutcome :=
  fun k _ => if k = 0 then .ok "SECTION BETA" else .ok "LATER TEXT"

/-- The formatted relevance-check prompt for topic `"Soil erosion"` and
query `"What is the capital of France?"`. -/
def c5promptX : String :=
  "Given the research topic: \x27Soil erosion\x27, determine if the following user query is relevant. Respond with \x27YES\x27 if relevant, and \x27NO\x27 if not relevant. Do not provide any other text.\n\nUser Query: What is the capital of France?"

/-- An engine oracle answering `"NO"` to the concrete relevance prompt
and `"YES"` to anything else. -/
def c5llmX : String → ChatEngineResult :=
  fun s => if s = c5promptX then .returned "NO" 1 else .returned "YES" 1

/-! ## Helper lemmas -/

set_option maxRecDepth 100000

set_option maxHeartbeats 1000000

theorem isPrefixChars_self_append (n rest : List Char) :
    isPrefixChars n (n ++ rest) = true := by
  induction n with
  | nil => rfl
  | cons c cs ih => simp [isPrefixChars, ih]

theorem substrChars_of_isPrefixChars (n l : List Char) (h : isPrefixChars n l = true) :
    substrChars n l = true := by
  cases l with
  | nil => simpa [substrChars] using h
  | cons c cs => simp [substrChars, h]

theorem substrChars_cons_of (n l : List Char) (c : Char) (h : substrChars n l = true) :
    substrChars n (c :: l) = true := by
  simp [substrChars, h]

theorem substrChars_append_left (n pre l : List Char) (h : substrChars n l = true) :
    substrChars n (pre ++ l) = true := by
  induction pre with
  | nil => simpa using h
  | cons c cs ih => simpa using substrChars_cons_of n (cs ++ l) c ih

theorem substrChars_mid (n a b : List Char) :
    substrChars n (a ++ (n ++ b)) = true :=
  substrChars_append_left n a _
    (substrChars_of_isPrefixChars n (n ++ b) (isPrefixChars_self_append n b))

/-- The missing-placeholder message always names the missing key. -/
theorem pmErrorMsg_contains_key (k n : String) :
    containsSub (pmErrorMsg (.missingPlaceholder k n)) k = true := by
  show substrChars k.data (pmErrorMsg (.missingPlaceholder k n)).data = true
  have h : (pmErrorMsg (.missingPlaceholder k n)).data =
      "Missing data for prompt placeholder: \x27".data ++
        (k.data ++ ("\x27. Check template \x27".data ++ n.data ++ "\x27.".data)) := by
    simp [pmErrorMsg]
  rw [h]
  exact substrChars_mid _ _ _

/-- Substituting into segments succeeds when every referenced
placeholder is supplied. -/
theorem renderSegs_ok (vars : List (String × String)) (segs : List Seg)
    (h : ∀ k ∈ segPlaceholders segs, (alookup vars k).isSome) :
    ∃ s, renderSegs vars segs = .ok s := by
  induction segs with
  | nil => exact ⟨"", rfl⟩
  | cons sg rest ih =>
    cases sg with
    | lit s =>
      obtain ⟨r, hr⟩ := ih (fun k hk => h k (by simpa [segPlaceholders] using hk))
      exact ⟨s ++ r, by simp [renderSegs, hr, Except.map]⟩
    | ph k0 =>
      have hk0 : (alookup vars k0).isSome := h k0 (by simp [segPlaceholders])
      obtain ⟨v, hv⟩ := Option.isSome_iff_exists.mp hk0
      obtain ⟨r, hr⟩ := ih (fun k hk => h k (by simp [segPlaceholders, hk]))
      exact ⟨v ++ r, by simp [renderSegs, hv, hr, Except.map]⟩

/-- Substituting into segments raises `KeyError` on the missing key when
exactly that key is missing. -/
theorem renderSegs_missing (vars : List (String × String)) (segs : List Seg) (k : String)
    (hk : k ∈ segPlaceholders segs) (hmiss : alookup vars k = none)
    (hcov : ∀ k' ∈ segPlaceholders segs, k' ≠ k → (alookup vars k').isSome) :
    renderSegs vars segs = .error (.keyError k) := by
  induction segs with
  | nil => simp [segPlaceholders] at hk
  | cons sg rest ih =>
    cases sg with
    | lit s =>
      have hk' : k ∈ segPlaceholders rest := by simpa [segPlaceholders] using hk
      have := ih hk' (fun k' h1 h2 => hcov k' (by simpa [segPlaceholders] using h1) h2)
      simp [renderSegs, this, Except.map]
    | ph k0 =>
      by_cases hk0 : k0 = k
      · subst hk0
        simp [renderSegs, hmiss]
      · have hk0some : (alookup vars k0).isSome :=
          hcov k0 (by simp [segPlaceholders]) hk0
        obtain ⟨v, hv⟩ := Option.isSome_iff_exists.mp hk0some
        have hk' : k ∈ segPlaceholders rest := by
          rcases (by simpa [segPlaceholders] using hk : k = k0 ∨ k ∈ segPlaceholders rest) with h | h
          · exact absurd h.symm hk0
          · exact h
        have := ih hk' (fun k' h1 h2 => hcov k' (by simp [segPlaceholders, h1]) h2)
        simp [renderSegs, hv, this, Except.map]

/-- Each template in the default store is nonempty and parses. -/
theorem defaultTemplates_parse (n t : String)
    (h : alookup defaultTemplates n = some t) :
    t ≠ "" ∧ (parseSegs t.data).isOk = true := by
  revert h
  simp only [defaultTemplates, alookup]
  split_ifs <;> intro h <;>
    first
    | (rw [Option.some_inj] at h; subst h; exact ⟨by decide, by decide⟩)
    | exact absurd h (by simp)

/-! ## Claim theorems -/

/-- Claim C7: for every call `format_prompt(name, vars)`, an unknown
`name` fails with the template-not-found condition; a known `name` whose
`vars` omit a placeholder the template references fails with the
missing-placeholder condition whose message names that exact key; and
with all placeholders supplied the call returns the substituted text. -/
theorem C7_format_prompt_contract :
    (∀ name vars, alookup defaultTemplates name = none →
        format_prompt defaultTemplates name vars = .error (.templateNotFound name)) ∧
    (∀ name t vars k, alookup defaultTemplates name = some t →
        k ∈ placeholders t → alookup vars k = none →
        (∀ k' ∈ placeholders t, k' ≠ k → (alookup vars k').isSome) →
        format_prompt defaultTemplates name vars = .error (.missingPlaceholder k name) ∧
          containsSub (pmErrorMsg (.missingPlaceholder k name)) k = true) ∧
    (∀ name t vars, alookup defaultTemplates name = some t →
        (∀ k ∈ placeholders t, (alookup vars k).isSome) →
        ∃ s, format_prompt defaultTemplates name vars = .ok s) := by
  refine ⟨?_, ?_, ?_⟩
  · intro name vars h
    simp [format_prompt, get_template, h]
  · intro name t vars k h hk hmiss hcov
    obtain ⟨hne, hparse⟩ := defaultTemplates_parse name t h
    obtain ⟨segs, hsegs⟩ : ∃ segs, parseSegs t.data = .ok segs := by
      cases hp : parseSegs t.data with
      | ok segs => exact ⟨segs, rfl⟩
      | error e => rw [hp] at hparse; cases hparse
    have hph : placeholders t = segPlaceholders segs := by
      simp [placeholders, hsegs]
    rw [hph] at hk hcov
    have hrender := renderSegs_missing vars segs k hk hmiss hcov
    refine ⟨?_, pmErrorMsg_contains_key k name⟩
    simp [format_prompt, get_template, h, hne, pyFormat, hsegs, hrender]
  · intro name t vars h hall
    obtain ⟨hne, hparse⟩ := defaultTemplates_parse name t h
    obtain ⟨segs, hsegs⟩ : ∃ segs, parseSegs t.data = .ok segs := by
      cases hp : parseSegs t.data with
      | ok segs => exact ⟨segs, rfl⟩
      | error e => rw [hp] at hparse; cases hparse
    have hph : placeholders t = segPlaceholders segs := by
      simp [placeholders, hsegs]
    rw [hph] at hall
    obtain ⟨s, hs⟩ := renderSegs_ok vars segs hall
    exact ⟨s, by simp [format_prompt, get_template, h, hne, pyFormat, hsegs, hs]⟩

/-- Witness for C7 at concrete inputs: an unknown template name, the
`relevance_check` template with `user_query` omitted, and the same
template fully supplied. -/
theorem C7_format_prompt_contract_witness :
    format_prompt defaultTemplates "nope" [] = .error (.templateNotFound "nope") ∧
    (format_prompt defaultTemplates "relevance_check" [("research_topic", "Soil erosion")] =
        .error (.missingPlaceholder "user_query" "relevance_check") ∧
      containsSub (pmErrorMsg (.missingPlaceholder "user_query" "relevance_check"))
        "user_query" = true) ∧
    ∃ s, format_prompt defaultTemplates "relevance_check"
        [("research_topic", "Soil erosion"), ("user_query", "What causes erosion?")] =
      .ok s :=
  ⟨C7_format_prompt_contract.1 "nope" [] (by decide),
   C7_format_prompt_contract.2.1 "relevance_check" tmplRelevanceCheck
     [("research_topic", "Soil erosion")] "user_query"
     (by decide) (by decide) (by decide) (by decide),
   C7_format_prompt_contract.2.2 "relevance_check" tmplRelevanceCheck
     [("research_topic", "Soil erosion"), ("user_query", "What causes erosion?")]
     (by decide) (by decide)⟩

/-- A dict descriptor never lets an exception escape `generate_section`:
every path returns a string. -/
theorem section_dict_ok (g : RGen) (provider : Nat → AttemptOutcome)
    (title : Option String) (pOpt : Option String) (wc : Option Nat)
    (prev : Option String) :
    ∃ s, (generate_section_run g provider (.dict title pOpt wc) prev).result = .ok s := by
  unfold generate_section_run
  dsimp only
  repeat' split
  all_goals exact ⟨_, rfl⟩

/-- Appending the line-280 deep-research suffix always yields a
non-empty string (so even an empty override passes line 289's check). -/
theorem append_deepPromptSuffix_ne_empty (p : String) : p ++ deepPromptSuffix ≠ "" := by
  cases p with
  | mk l =>
    intro h
    have h2 : l ++ deepPromptSuffix.data = [] := congrArg String.data h
    exact absurd (List.append_eq_nil.mp h2).2 (by decide)

/-- The engine prompt of a dict descriptor with a non-empty override is
the formatted `research_section` template — the override plays no part
(with deep research on, the suffix keeps the override non-empty, so the
outcome is the same). -/
theorem section_dict_prompt (g : RGen) (provider : Nat → AttemptOutcome)
    (title : Option String) (pr : String) (wc : Option Nat) (prev : Option String)
    (hpr : pr ≠ "") :
    (generate_section_run g provider (.dict title (some pr) wc) prev).enginePrompt =
      (expectedSectionPrompt g (title.getD "Untitled Section") wc prev).toOption := by
  unfold generate_section_run
  dsimp only
  by_cases hd : g.deep = true
  · rw [if_pos hd]
    have hcond : ¬(Option.map (fun p => p ++ deepPromptSuffix) (some pr) = none ∨
        Option.map (fun p => p ++ deepPromptSuffix) (some pr) = some "") := by
      simp [append_deepPromptSuffix_ne_empty pr]
    rw [if_neg hcond]
    cases hE : expectedSectionPrompt g (title.getD "Untitled Section") wc prev <;>
      simp [hE, Except.toOption]
  · rw [if_neg hd]
    have hcond : ¬((some pr : Option String) = none ∨ (some pr : Option String) = some "") := by
      simp [hpr]
    rw [if_neg hcond]
    cases hE : expectedSectionPrompt g (title.getD "Untitled Section") wc prev <;>
      simp [hE, Except.toOption]

/-- Claim C3: `generate_report()` returns exactly the six canonical
section keys in insertion order whatever each engine call did, and the
fallback mapping used when the process raises has the same six keys. -/
theorem C3_report_keys_complete (g : RGen) (providers : Nat → Nat → AttemptOutcome) :
    (generate_report g providers).map Prod.fst =
      ["Introduction", "Literature Review", "Methodology", "Results",
       "Discussion", "Conclusion"] ∧
    ∀ e, (reportFallback e).map Prod.fst =
      ["Introduction", "Literature Review", "Methodology", "Results",
       "Discussion", "Conclusion"] := by
  constructor
  · obtain ⟨s0, h0⟩ := section_dict_ok g (providers 0) (some "Introduction")
      (some "Provide an introduction to the topic.") (some 200) none
    obtain ⟨s1, h1⟩ := section_dict_ok g (providers 1) (some "Literature Review")
      (some "Review existing literature on the topic.") (some 400) none
    obtain ⟨s2, h2⟩ := section_dict_ok g (providers 2) (some "Methodology")
      (some "Describe the research methodology.") (some 300) none
    obtain ⟨s3, h3⟩ := section_dict_ok g (providers 3) (some "Results")
      (some "Present the results of the research.") (some 300) none
    obtain ⟨s4, h4⟩ := section_dict_ok g (providers 4) (some "Discussion")
      (some "Discuss the implications of the results.") (some 300) none
    obtain ⟨s5, h5⟩ := section_dict_ok g (providers 5) (some "Conclusion")
      (some "Conclude the research with key findings.") (some 200) none
    simp [generate_report, generate_report_run, h0, h1, h2, h3, h4, h5]
  · intro e
    rfl

/-- Claim C4, counterexample: two descriptors differing only in their
prompt override produce the same engine prompt; the override's text does
not occur in the prompt actually sent, although a prompt was sent. -/
theorem C4_override_counterexample :
    ((generate_section_run gX (fun _ => .ok "SECTION TEXT")
        (.dict (some "Introduction") (some "Provide an introduction to the topic.") (some 200))
        none).enginePrompt =
      (generate_section_run gX (fun _ => .ok "SECTION TEXT")
        (.dict (some "Introduction") (some "A COMPLETELY DIFFERENT OVERRIDE PROMPT") (some 200))
        none).enginePrompt) ∧
    ((generate_section_run gX (fun _ => .ok "SECTION TEXT")
        (.dict (some "Introduction") (some "Provide an introduction to the topic.") (some 200))
        none).enginePrompt.map
        (fun p => containsSub p "Provide an introduction to the topic.") = some false) ∧
    ((generate_section_run gX (fun _ => .ok "SECTION TEXT")
        (.dict (some "Introduction") (some "Provide an introduction to the topic.") (some 200))
        none).enginePrompt.isSome = true) := by
  decide

/-- Claim C4 as amended: the prompt override of a structured descriptor
is validated but never used.  An absent override yields an
`Error:`-prefixed string with no engine call; an empty override does so
only when deep research is off — when it is on, line 280 appends the
deep suffix to the present-but-empty value before line 289's truthiness
check, so the engine is called after all.  Whenever the engine is
reached, the prompt it receives is the formatted `research_section`
template, identical for different overrides: the override never reaches
the engine. -/
theorem C4_override_validated_but_unused (g : RGen) (provider : Nat → AttemptOutcome)
    (title : Option String) (p p' : String) (wc : Option Nat) (prev : Option String)
    (hp : p ≠ "") (hp' : p' ≠ "") :
    ((generate_section_run g provider (.dict title (some p) wc) prev).enginePrompt =
      (generate_section_run g provider (.dict title (some p') wc) prev).enginePrompt) ∧
    ((generate_section_run g provider (.dict title (some p) wc) prev).enginePrompt =
      (expectedSectionPrompt g (title.getD "Untitled Section") wc prev).toOption) ∧
    ((generate_section_run g provider (.dict title none wc) prev).result =
      .ok ("Error: Section \x27" ++ title.getD "Untitled Section" ++
        "\x27 is missing a \x27prompt\x27 field in the template.")) ∧
    ((generate_section_run g provider (.dict title none wc) prev).enginePrompt = none) ∧
    (g.deep = false →
      (generate_section_run g provider (.dict title (some "") wc) prev).result =
        .ok ("Error: Section \x27" ++ title.getD "Untitled Section" ++
          "\x27 is missing a \x27prompt\x27 field in the template.") ∧
      (generate_section_run g provider (.dict title (some "") wc) prev).enginePrompt =
        none) ∧
    (g.deep = true →
      (generate_section_run g provider (.dict title (some "") wc) prev).enginePrompt =
        (expectedSectionPrompt g (title.getD "Untitled Section") wc prev).toOption) := by
  refine ⟨?_, section_dict_prompt g provider title p wc prev hp, ?_, ?_, ?_, ?_⟩
  · rw [section_dict_prompt g provider title p wc prev hp,
        section_dict_prompt g provider title p' wc prev hp']
  · unfold generate_section_run
    simp
  · unfold generate_section_run
    simp
  · intro hd
    unfold generate_section_run
    simp [hd]
  · intro hd
    unfold generate_section_run
    dsimp only
    rw [if_pos hd]
    have hcond : ¬(Option.map (fun p => p ++ deepPromptSuffix) (some "") = none ∨
        Option.map (fun p => p ++ deepPromptSuffix) (some "") = some "") := by
      decide
    rw [if_neg hcond]
    cases hE : expectedSectionPrompt g (title.getD "Untitled Section") wc prev <;>
      simp [hE, Except.toOption]

/-- Witness for C4's amended statement at concrete inputs, covering both
deep-research settings: with deep research off (`gX`) the empty override
is rejected before any engine call; with it on (`gDeepX`) the mutated
empty override reaches the engine with the template-formatted prompt. -/
theorem C4_override_validated_but_unused_witness :
    ((generate_section_run gX (fun _ => .ok "SECTION TEXT")
        (.dict (some "Results") (some "P1") (some 300)) none).enginePrompt =
      (generate_section_run gX (fun _ => .ok "SECTION TEXT")
        (.dict (some "Results") (some "P2") (some 300)) none).enginePrompt) ∧
    ((generate_section_run gX (fun _ => .ok "SECTION TEXT")
        (.dict (some "Results") (some "P1") (some 300)) none).enginePrompt =
      (expectedSectionPrompt gX ((some "Results").getD "Untitled Section")
        (some 300) none).toOption) ∧
    ((generate_section_run gX (fun _ => .ok "SECTION TEXT")
        (.dict (some "Results") none (some 300)) none).result =
      .ok ("Error: Section \x27" ++ (some "Results").getD "Untitled Section" ++
        "\x27 is missing a \x27prompt\x27 field in the template.")) ∧
    ((generate_section_run gX (fun _ => .ok "SECTION TEXT")
        (.dict (some "Results") none (some 300)) none).enginePrompt = none) ∧
    ((generate_section_run gX (fun _ => .ok "SECTION TEXT")
        (.dict (some "Results") (some "") (some 300)) none).result =
      .ok ("Error: Section \x27" ++ (some "Results").getD "Untitled Section" ++
        "\x27 is missing a \x27prompt\x27 field in the template.") ∧
      (generate_section_run gX (fun _ => .ok "SECTION TEXT")
        (.dict (some "Results") (some "") (some 300)) none).enginePrompt = none) ∧
    ((generate_section_run gDeepX (fun _ => .ok "SECTION TEXT")
        (.dict (some "Results") (some "") (some 300)) none).enginePrompt =
      (expectedSectionPrompt gDeepX ((some "Results").getD "Untitled Section")
        (some 300) none).toOption) :=
  ⟨(C4_override_validated_but_unused gX (fun _ => .ok "SECTION TEXT")
      (some "Results") "P1" "P2" (some 300) none (by decide) (by decide)).1,
   (C4_override_validated_but_unused gX (fun _ => .ok "SECTION TEXT")
      (some "Results") "P1" "P2" (some 300) none (by decide) (by decide)).2.1,
   (C4_override_validated_but_unused gX (fun _ => .ok "SECTION TEXT")
      (some "Results") "P1" "P2" (some 300) none (by decide) (by decide)).2.2.1,
   (C4_override_validated_but_unused gX (fun _ => .ok "SECTION TEXT")
      (some "Results") "P1" "P2" (some 300) none (by decide) (by decide)).2.2.2.1,
   (C4_override_validated_but_unused gX (fun _ => .ok "SECTION TEXT")
      (some "Results") "P1" "P2" (some 300) none (by decide) (by decide)).2.2.2.2.1 rfl,
   (C4_override_validated_but_unused gDeepX (fun _ => .ok "SECTION TEXT")
      (some "Results") "P1" "P2" (some 300) none (by decide) (by decide)).2.2.2.2.2 rfl⟩

/-- Claim C9 as amended: sections are generated strictly in sequence,
but `generate_report` passes no accumulated text: every section's engine
prompt is the `research_section` template formatted with an empty
previous-sections placeholder, independent of the providers' outputs. -/
theorem C9_prompts_never_accumulate (g : RGen) (providers : Nat → Nat → AttemptOutcome) :
    (generate_report_run g providers).2 =
      [("Introduction", (expectedSectionPrompt g "Introduction" (some 200) none).toOption),
       ("Literature Review", (expectedSectionPrompt g "Literature Review" (some 400) none).toOption),
       ("Methodology", (expectedSectionPrompt g "Methodology" (some 300) none).toOption),
       ("Results", (expectedSectionPrompt g "Results" (some 300) none).toOption),
       ("Discussion", (expectedSectionPrompt g "Discussion" (some 300) none).toOption),
       ("Conclusion", (expectedSectionPrompt g "Conclusion" (some 200) none).toOption)] := by
  obtain ⟨s0, h0⟩ := section_dict_ok g (providers 0) (some "Introduction")
    (some "Provide an introduction to the topic.") (some 200) none
  obtain ⟨s1, h1⟩ := section_dict_ok g (providers 1) (some "Literature Review")
    (some "Review existing literature on the topic.") (some 400) none
  obtain ⟨s2, h2⟩ := section_dict_ok g (providers 2) (some "Methodology")
    (some "Describe the research methodology.") (some 300) none
  obtain ⟨s3, h3⟩ := section_dict_ok g (providers 3) (some "Results")
    (some "Present the results of the research.") (some 300) none
  obtain ⟨s4, h4⟩ := section_dict_ok g (providers 4) (some "Discussion")
    (some "Discuss the implications of the results.") (some 300) none
  obtain ⟨s5, h5⟩ := section_dict_ok g (providers 5) (some "Conclusion")
    (some "Conclude the research with key findings.") (some 200) none
  have e0 := section_dict_prompt g (providers 0) (some "Introduction")
    "Provide an introduction to the topic." (some 200) none (by decide)
  have e1 := section_dict_prompt g (providers 1) (some "Literature Review")
    "Review existing literature on the topic." (some 400) none (by decide)
  have e2 := section_dict_prompt g (providers 2) (some "Methodology")
    "Describe the research methodology." (some 300) none (by decide)
  have e3 := section_dict_prompt g (providers 3) (some "Results")
    "Present the results of the research." (some 300) none (by decide)
  have e4 := section_dict_prompt g (providers 4) (some "Discussion")
    "Discuss the implications of the results." (some 300) none (by decide)
  have e5 := section_dict_prompt g (providers 5) (some "Conclusion")
    "Conclude the research with key findings." (some 200) none (by decide)
  simp only [Option.getD_some] at e0 e1 e2 e3 e4 e5
  simp [generate_report_run, h0, h1, h2, h3, h4, h5, e0, e1, e2, e3, e4, e5]

/-- Claim C9, counterexample: changing the first section's generated
text changes no later section's engine prompt — the second section's
prompt does not contain the first section's text. -/
theorem C9_no_accumulation_counterexample :
    ((generate_report_run gX provAlpha).2 = (generate_report_run gX provBeta).2) ∧
    ((generate_report_run gX provAlpha).1.get? 0 = some ("Introduction", "SECTION ALPHA")) ∧
    ((generate_report_run gX provBeta).1.get? 0 = some ("Introduction", "SECTION BETA")) ∧
    ((((generate_report_run gX provAlpha).2.get? 1).bind Prod.snd).map
        (fun p => containsSub p "SECTION ALPHA") = some false) := by
  decide

/-- Claim C5: when the relevance check returns `"NO"`, the chat turn
returns the scope-refusal message naming the research topic and issues
no further engine calls and no web search. -/
theorem C5_relevance_no_short_circuit (c : CMgr) (hist : List (String × String))
    (llm : String → ChatEngineResult) (webResults : List (String × String))
    (scrape : String → Option String) (q p : String) (n : Nat)
    (hq : q ≠ "") (hqs : stripStr q ≠ "")
    (hp : format_prompt defaultTemplates "relevance_check"
        [("research_topic", c.research_topic), ("user_query", q)] = .ok p)
    (hllm : llm p = .returned "NO" n) :
    generate_chat_response c hist llm webResults scrape q =
      ⟨scopeRefusal c.research_topic, [p], 0, hist, ["relevance_check"]⟩ := by
  have hcond : ¬(q = "" ∨ stripStr q = "") := by simp [hq, hqs]
  have hno : containsSub (lowerStr "NO") "no" = true := by decide
  simp only [generate_chat_response, if_neg hcond, hp, hllm, hno, if_true]

/-- Witness for C5: a concrete off-topic query against the
`"Soil erosion"` topic with an oracle answering `"NO"`. -/
theorem C5_relevance_no_short_circuit_witness :
    generate_chat_response cX [] c5llmX [] (fun _ => none) "What is the capital of France?" =
      ⟨scopeRefusal "Soil erosion", [c5promptX], 0, [], ["relevance_check"]⟩ :=
  C5_relevance_no_short_circuit cX [] c5llmX [] (fun _ => none)
    "What is the capital of France?" c5promptX 1
    (by decide) (by decide) (by decide) (by decide)

/-- Claim C10: an empty or whitespace-only query returns exactly
`"Please ask a question."` with no template formatted, no engine or web
call, and the chat history unchanged. -/
theorem C10_empty_query_guard (c : CMgr) (hist : List (String × String))
    (llm : String → ChatEngineResult) (webResults : List (String × String))
    (scrape : String → Option String) (q : String)
    (h : q = "" ∨ stripStr q = "") :
    generate_chat_response c hist llm webResults scrape q =
      ⟨"Please ask a question.", [], 0, hist, []⟩ := by
  simp only [generate_chat_response, if_pos h]

/-- Witness for C10 at the whitespace-only query `"   "`. -/
theorem C10_empty_query_guard_witness :
    generate_chat_response cX [] (fun _ => .returned "YES" 1) [] (fun _ => none) "   " =
      ⟨"Please ask a question.", [], 0, [], []⟩ :=
  C10_empty_query_guard cX [] (fun _ => .returned "YES" 1) [] (fun _ => none) "   "
    (by decide)

/-- General form of the transient-retry invariant on
`ResearchGenerator`'s engine: when every attempt times out, the loop
makes exactly `max_retries` provider calls, sleeping `2 ^ attempt`
seconds before each retry attempt `attempt + 1`, then returns the
timeout error string. -/
theorem researchRetry_timeout_exhausts (g : RGen) (sn : String)
    (provider : Nat → AttemptOutcome)
    (hsup : engineSupported (familyOf g.model_name) g.clientOk = true)
    (hmax : 0 < g.max_retries)
    (htim : ∀ a, ∃ m, provider a = .exc (.timeout m)) :
    make_api_call_with_retry g sn provider =
      ⟨"Error: Request timeout for " ++ sn ++ " with " ++ g.model_name ++
        ". Please check your connection and try again.",
       g.max_retries, (List.range (g.max_retries - 1)).map (fun a => 2 ^ a)⟩ := by
  suffices h : ∀ fuel attempt calls waits, 0 < fuel →
      attempt + fuel = g.max_retries →
      researchRetry g sn provider fuel attempt calls waits =
        ⟨"Error: Request timeout for " ++ sn ++ " with " ++ g.model_name ++
          ". Please check your connection and try again.",
         calls + fuel, waits ++ (List.range' attempt (fuel - 1)).map (fun a => 2 ^ a)⟩ by
    have := h g.max_retries 0 0 [] hmax (by omega)
    unfold make_api_call_with_retry
    rw [this]
    simp [List.range_eq_range']
  intro fuel
  induction fuel with
  | zero => omega
  | succ f ihf =>
    intro attempt calls waits _ hsum
    obtain ⟨m, hm⟩ := htim attempt
    simp only [researchRetry, if_pos hsup, hm]
    cases f with
    | zero =>
      have hlast : ¬attempt < g.max_retries - 1 := by omega
      simp only [if_neg hlast]
      simp [List.range'_zero]
    | succ f' =>
      have hretry : attempt < g.max_retries - 1 := by omega
      simp only [if_pos hretry]
      rw [ihf (attempt + 1) (calls + 1) (waits ++ [2 ^ attempt]) (by omega) (by omega)]
      have hrange : List.range' attempt (f' + 1) =
          attempt :: List.range' (attempt + 1) f' := List.range'_succ ..
      simp [hrange]
      omega

/-- General form of the auth short-circuit on `ResearchGenerator`'s
engine: a first-attempt failure classified as authentication returns the
invalid-credentials string after exactly one call and no sleep. -/
theorem researchRetry_auth_immediate (g : RGen) (sn : String)
    (provider : Nat → AttemptOutcome) (m : String)
    (hsup : engineSupported (familyOf g.model_name) g.clientOk = true)
    (hmax : 0 < g.max_retries)
    (h0 : provider 0 = .exc (.apiError m))
    (hnotrate : (containsSub (lowerStr m) "quota" || containsSub (lowerStr m) "rate") = false)
    (hkey : (containsSub (lowerStr m) "api key" ||
      containsSub (lowerStr m) "authentication") = true) :
    make_api_call_with_retry g sn provider =
      ⟨"Error: Invalid API key for " ++ g.model_name ++
        ". Please check your configuration.", 1, []⟩ := by
  obtain ⟨f, hf⟩ : ∃ f, g.max_retries = f + 1 :=
    ⟨g.max_retries - 1, by omega⟩
  unfold make_api_call_with_retry
  rw [hf]
  simp only [researchRetry, if_pos hsup, h0]
  simp [hnotrate, hkey]

/-- General form of the `ChatManager` engine defect: with a supported
model and any first-attempt provider exception, the method raises
`NameError` after exactly one call — never a returned string, never a
retry. -/
theorem chatRetry_raises_on_first_exc (c : CMgr) (ct : String)
    (provider : Nat → AttemptOutcome) (e : PyExc)
    (hsup : engineSupported (familyOf c.model_name) c.clientOk = true)
    (hmax : 0 < c.max_retries)
    (h0 : provider 0 = .exc e) :
    make_llm_call_with_retry c ct provider = .raised "NameError" nameErrorMsg 1 := by
  obtain ⟨f, hf⟩ : ∃ f, c.max_retries = f + 1 :=
    ⟨c.max_retries - 1, by omega⟩
  unfold make_llm_call_with_retry
  rw [hf]
  simp only [chatRetry, if_pos hsup, h0]

/-- Claim C1, evaluated at the failing input: with `max_retries = 3` and
a provider timing out on every attempt, `ResearchGenerator`'s engine
makes exactly 3 calls with backoff waits `[1, 2]` (the `2 ^ attempt`
schedule before retry attempts 1 and 2) and returns an `Error` string,
and the rate-limit classification waits `[2, 4]`; but `ChatManager`'s
copy of the same loop raises a `NameError` after a single call — the
`except` clause at `chat_manager.py` line 125 references the unimported
name `openai` — so it never retries and never backs off. -/
theorem C1_transient_retry_eval :
    (make_api_call_with_retry gX "Results" (fun _ => .exc (.timeout "Request timed out")) =
      ⟨"Error: Request timeout for Results with gemini-2.5-flash. Please check your connection and try again.",
       3, [1, 2]⟩) ∧
    (make_api_call_with_retry gX "Results"
        (fun _ => .exc (.apiError "429 Resource has been exhausted (e.g. check quota).")) =
      ⟨"Error: API rate limit exceeded for Results with gemini-2.5-flash. Please try again later.",
       3, [2, 4]⟩) ∧
    (make_llm_call_with_retry cX "relevance check" (fun _ => .exc (.timeout "Request timed out")) =
      .raised "NameError" nameErrorMsg 1) := by
  decide

/-- Claim C2, evaluated at the failing input: an
authentication-classified failure makes `ResearchGenerator`'s engine
return the invalid-credentials string after exactly one call with no
backoff (and a permission-classified failure the permission string), but
`ChatManager`'s copy raises `NameError` instead of returning any string. -/
theorem C2_auth_short_circuit_eval :
    (make_api_call_with_retry gX "Discussion"
        (fun _ => .exc (.apiError "Invalid API key provided: authentication failed")) =
      ⟨"Error: Invalid API key for gemini-2.5-flash. Please check your configuration.", 1, []⟩) ∧
    (make_api_call_with_retry gX "Discussion"
        (fun _ => .exc (.apiError "403 Permission denied on resource")) =
      ⟨"Error: Permission denied for gemini-2.5-flash. Please check your API key permissions.",
       1, []⟩) ∧
    (make_llm_call_with_retry cX "chat response"
        (fun _ => .exc (.apiError "Invalid API key provided: authentication failed")) =
      .raised "NameError" nameErrorMsg 1) := by
  decide

/-- Claim C6, evaluated branch by branch: each failure case of
`ResearchGenerator`'s engine is a returned string beginning with the
word `Error`, while `ChatManager`'s copy lets a `NameError` escape
instead of returning a string at all. -/
theorem C6_error_string_boundary_eval :
    (startsWithStr (make_api_call_with_retry gUnsup "S" (fun _ => .ok "x")).text "Error" = true) ∧
    (startsWithStr (make_api_call_with_retry gX "S"
        (fun _ => .exc (.timeout "t"))).text "Error" = true) ∧
    (startsWithStr (make_api_call_with_retry gX "S"
        (fun _ => .exc (.apiError "quota exceeded"))).text "Error" = true) ∧
    (startsWithStr (make_api_call_with_retry gX "S"
        (fun _ => .exc (.apiError "bad authentication token"))).text "Error" = true) ∧
    (startsWithStr (make_api_call_with_retry gX "S"
        (fun _ => .exc (.apiError "permission denied"))).text "Error" = true) ∧
    (startsWithStr (make_api_call_with_retry gX "S"
        (fun _ => .exc (.apiError "some opaque provider failure"))).text "Error" = true) ∧
    (startsWithStr (make_api_call_with_retry gX "S"
        (fun _ => .exc (.other "RuntimeError" "boom"))).text "Error" = true) ∧
    (startsWithStr (make_api_call_with_retry gX "S" (fun _ => .ok "  ")).text "Error" = true) ∧
    (make_llm_call_with_retry cX "executive summary"
        (fun _ => .exc (.apiError "Rate limit: quota exceeded")) =
      .raised "NameError" nameErrorMsg 1) := by
  decide

/-- The invariant holds of a fresh registry. -/
theorem regGood_init (ctorOk : String → Bool) (keys : List (String × String)) :
    RegGood ctorOk (initRegistry keys) := by
  refine ⟨?_, ?_, ?_⟩
  · intro fam h hl
    simp [initRegistry, alookup] at hl
  · intro fam
    simp [initRegistry, countStr]
  · intro fam hc
    simp [initRegistry, countStr] at hc

/-- One `get_client` call preserves the invariant and the credentials. -/
theorem get_client_preserves (ctorOk : String → Bool) (r : Registry) (m : String)
    (hg : RegGood ctorOk r) :
    RegGood ctorOk (get_client ctorOk r m).2 ∧
      (get_client ctorOk r m).2.api_keys = r.api_keys := by
  obtain ⟨inv1, inv2, inv3⟩ := hg
  unfold get_client
  dsimp only
  by_cases hc : (alookup r.clients (familyOf m)).isSome
  · rw [if_pos hc]
    exact ⟨⟨inv1, inv2, inv3⟩, rfl⟩
  · rw [if_neg hc]
    dsimp only
    unfold init_api_client
    cases hk : alookup r.api_keys (familyOf m) with
    | none => exact ⟨⟨inv1, inv2, inv3⟩, rfl⟩
    | some key =>
      by_cases hs : supportedFamily (familyOf m) = true
      · by_cases hco : ctorOk (familyOf m) = true
        · rw [if_pos hs, if_pos hco]
          have hcount0 : countStr (familyOf m) r.built = 0 := by
            by_contra hne
            exact hc (inv3 _ hne)
          refine ⟨⟨?_, ?_, ?_⟩, rfl⟩
          · intro fam h hl
            by_cases hf : familyOf m = fam
            · subst hf
              exact ⟨hs, by simp [hk], hco⟩
            · simp only [alookup, if_neg hf] at hl
              exact inv1 fam h hl
          · intro fam
            by_cases hf : familyOf m = fam
            · subst hf
              simp [countStr, hcount0]
            · have := inv2 fam
              simp [countStr, hf]
              omega
          · intro fam hcnt
            by_cases hf : familyOf m = fam
            · subst hf
              simp [alookup]
            · simp only [countStr, if_neg hf, Nat.zero_add] at hcnt
              simp only [alookup, if_neg hf]
              exact inv3 fam hcnt
        · rw [if_pos hs, if_neg hco]
          exact ⟨⟨inv1, inv2, inv3⟩, rfl⟩
      · rw [if_neg hs]
        exact ⟨⟨inv1, inv2, inv3⟩, rfl⟩

/-- Any call sequence from a fresh registry preserves the invariant and
the credentials. -/
theorem runCalls_good (ctorOk : String → Bool) (keys : List (String × String))
    (ms : List String) :
    RegGood ctorOk (runCalls ctorOk (initRegistry keys) ms) ∧
      (runCalls ctorOk (initRegistry keys) ms).api_keys = keys := by
  suffices h : ∀ (ms : List String) (r : Registry), RegGood ctorOk r →
      RegGood ctorOk (runCalls ctorOk r ms) ∧
        (runCalls ctorOk r ms).api_keys = r.api_keys by
    exact h ms (initRegistry keys) (regGood_init ctorOk keys)
  intro ms
  induction ms with
  | nil => exact fun r hr => ⟨hr, rfl⟩
  | cons m rest ih =>
    intro r hr
    obtain ⟨hg', hk'⟩ := get_client_preserves ctorOk r m hr
    obtain ⟨hg'', hk''⟩ := ih (get_client ctorOk r m).2 hg'
    refine ⟨hg'', ?_⟩
    show (runCalls ctorOk (get_client ctorOk r m).2 rest).api_keys = r.api_keys
    rw [hk'', hk']

/-- Claim C8: `get_client` resolves the provider purely from the
substring before the first hyphen; an unsupported family, missing
credential, or failing constructor yields `none` (never an escaping
exception — every outcome is a returned value); at most one handle is
ever constructed per family over the registry's lifetime; and once a
handle is returned, every later call for that family returns the same
cached handle without touching the registry. -/
theorem C8_registry_contract :
    (∀ (ctorOk : String → Bool) (r : Registry) (m m' : String),
        familyOf m = familyOf m' →
        get_client ctorOk r m = get_client ctorOk r m') ∧
    (∀ (ctorOk : String → Bool) (keys : List (String × String)) (ms : List String)
        (m : String),
        supportedFamily (familyOf m) = false ∨ alookup keys (familyOf m) = none ∨
          ctorOk (familyOf m) = false →
        (get_client ctorOk (runCalls ctorOk (initRegistry keys) ms) m).1 = none) ∧
    (∀ (ctorOk : String → Bool) (keys : List (String × String)) (ms : List String)
        (fam : String),
        countStr fam (runCalls ctorOk (initRegistry keys) ms).built ≤ 1) ∧
    (∀ (ctorOk : String → Bool) (r : Registry) (m : String) (h : String)
        (r' : Registry),
        get_client ctorOk r m = (some h, r') →
        get_client ctorOk r' m = (some h, r')) := by
  refine ⟨?_, ?_, ?_, ?_⟩
  · intro ctorOk r m m' h
    unfold get_client
    rw [h]
  · intro ctorOk keys ms m hbad
    obtain ⟨⟨inv1, _, _⟩, hkeys⟩ := runCalls_good ctorOk keys ms
    set r := runCalls ctorOk (initRegistry keys) ms with hr
    have hc : ¬(alookup r.clients (familyOf m)).isSome := by
      intro hsome
      obtain ⟨h, hl⟩ := Option.isSome_iff_exists.mp hsome
      obtain ⟨h1, h2, h3⟩ := inv1 _ _ hl
      rw [hkeys] at h2
      rcases hbad with hb | hb | hb
      · rw [h1] at hb
        cases hb
      · rw [hb] at h2
        cases h2
      · rw [hb] at h3
        cases h3
    unfold get_client
    dsimp only
    rw [if_neg hc]
    dsimp only
    unfold init_api_client
    cases hk : alookup r.api_keys (familyOf m) with
    | none =>
      exact Option.not_isSome_iff_eq_none.mp hc
    | some key =>
      by_cases hs : supportedFamily (familyOf m) = true
      · rcases hbad with hb | hb | hb
        · rw [hs] at hb
          cases hb
        · rw [hkeys] at hk
          rw [hb] at hk
          cases hk
        · rw [if_pos hs, if_neg (by rw [hb]; exact Bool.false_ne_true)]
          exact Option.not_isSome_iff_eq_none.mp hc
      · rw [if_neg hs]
        exact Option.not_isSome_iff_eq_none.mp hc
  · intro ctorOk keys ms fam
    exact (runCalls_good ctorOk keys ms).1.2.1 fam
  · intro ctorOk r m h r' heq
    unfold get_client at heq
    by_cases hc : (alookup r.clients (familyOf m)).isSome
    · rw [if_pos hc] at heq
      obtain ⟨h1, h2⟩ := Prod.mk.injEq .. ▸ heq
      rw [h2] at hc h1
      unfold get_client
      rw [if_pos hc, h1]
    · rw [if_neg hc] at heq
      dsimp only at heq
      obtain ⟨h1, h2⟩ := Prod.mk.injEq .. ▸ heq
      rw [h2] at h1
      have hsome : (alookup r'.clients (familyOf m)).isSome := by
        rw [h1]
        rfl
      unfold get_client
      rw [if_pos hsome, h1]

/-- Witness for C8 at concrete inputs: a one-key registry, resolving two
model identifiers of the same family, a family without a credential, a
repeated-construction count, and a cached-handle repeat call. -/
theorem C8_registry_contract_witness :
    (get_client (fun _ => true) (initRegistry [("gemini", "k")]) "gemini-1.5-flash" =
      get_client (fun _ => true) (initRegistry [("gemini", "k")]) "gemini-2.5-flash") ∧
    ((get_client (fun _ => true)
        (runCalls (fun _ => true) (initRegistry [("gemini", "k")]) [])
        "claude-3-opus-20240229").1 = none) ∧
    (countStr "gemini"
      (runCalls (fun _ => true) (initRegistry [("gemini", "k")])
        ["gemini-1.5-flash", "gemini-2.5-flash", "gpt-4o"]).built ≤ 1) ∧
    (get_client (fun _ => true)
        ((get_client (fun _ => true) (initRegistry [("gemini", "k")]) "gemini-1.5-flash").2)
        "gemini-1.5-flash" =
      (some "client:gemini",
       (get_client (fun _ => true) (initRegistry [("gemini", "k")]) "gemini-1.5-flash").2)) :=
  ⟨C8_registry_contract.1 (fun _ => true) (initRegistry [("gemini", "k")])
      "gemini-1.5-flash" "gemini-2.5-flash" (by decide),
   C8_registry_contract.2.1 (fun _ => true) [("gemini", "k")] [] "claude-3-opus-20240229"
      (Or.inr (Or.inl (by decide))),
   C8_registry_contract.2.2.1 (fun _ => true) [("gemini", "k")]
      ["gemini-1.5-flash", "gemini-2.5-flash", "gpt-4o"] "gemini",
   C8_registry_contract.2.2.2 (fun _ => true) (initRegistry [("gemini", "k")])
      "gemini-1.5-flash" "client:gemini"
      ((get_client (fun _ => true) (initRegistry [("gemini", "k")]) "gemini-1.5-flash").2)
      (by decide)⟩

end Ereuna
